import Mathlib

/-!
# soft_pwm: software PWM channels over hrtimers and gpiolib

A shallow embedding of `src/soft_pwm.c`.

* C `unsigned int` fields are `Nat`, reduced modulo `UINT_MOD = 2 ^ 32` wherever the C code
  stores into them or computes with them; `int` is `Int`.
* `kstrtoul(buf, 0, &value)` is an external kernel routine: the sysfs handlers take its outcome
  (`kstrtoul_result`) instead of the text buffer.  On a 64-bit kernel a parsed `unsigned long`
  is any natural number below `2 ^ 64`.
* The GPIO library, the device model and the hrtimer core are external collaborators; their
  state is carried explicitly (`gpiolib`, `State.devices`, `pwm_desc.hr_timer`) and the outcomes
  that the driver cannot influence are read from an `Env`.
-/

namespace SoftPwm

/-! ## Constants -/

/-- Number of values of a C `unsigned int` (32 bits). -/
def UINT_MOD : Nat := 4294967296

/-- Number of values of a C `int` below zero, i.e. `2 ^ 31`. -/
def INT_HALF : Nat := 2147483648

def EIO : Int := 5
def ENODEV : Int := 19
def EBUSY : Int := 16
def EINVAL : Int := 22
def ERANGE : Int := 34
def EPROBE_DEFER : Int := 517

/-- `#define FLAG_SOFTPWM 0` -/
def FLAG_SOFTPWM : Nat := 0

/-- `#define MAX_PWM_INSTANCES (5)` -/
def MAX_PWM_INSTANCES : Nat := 5

/-! ## Data model -/

/-- `struct pwm_desc`.  `hr_timer` is the state of the embedded `struct hrtimer`: `none` when the
timer is not queued, `some ns` when it is queued to expire `ns` nanoseconds after the moment it
was started (the driver only uses `HRTIMER_MODE_REL`). -/
structure pwm_desc where
  duty_cycle : Nat
  period : Nat
  value : Int
  hr_timer : Option Nat
  flags : Nat
  gpio : Nat
  enable : Nat
deriving DecidableEq

/-- A slot of the statically allocated (zero-filled) `pwm_table`. -/
def pwm_desc_zero : pwm_desc :=
  { duty_cycle := 0, period := 0, value := 0, hr_timer := none, flags := 0, gpio := 0, enable := 0 }

/-- Outcome of `kstrtoul(buf, 0, &value)`: `0` with the parsed `unsigned long`, or one of the two
error codes; on an error `value` is not written. -/
inductive kstrtoul_result where
  | ok (value : Nat)
  | einval
  | erange
deriving DecidableEq

/-- The `int` returned by `kstrtoul`. -/
def kstrtoul_result.ret : kstrtoul_result → Int
  | .ok _ => 0
  | .einval => - EINVAL
  | .erange => - ERANGE

/-- State of the GPIO backend: the lines currently requested (held) and the lines currently
driven high. -/
structure gpiolib where
  requested : List Nat
  high : List Nat
deriving DecidableEq

/-- A device registered in the `soft_pwm` class: its driver data (the index of the descriptor in
`pwm_table`) and the number in its name `pwm%d`. -/
structure device where
  drvdata : Nat
  name : Nat
deriving DecidableEq

/-- Whole driver state: `pwm_table`, the GPIO backend, and the devices of the class. -/
structure State where
  pwm_table : List pwm_desc
  lib : gpiolib
  devices : List device
deriving DecidableEq

/-- Outcomes of the external collaborators that the driver does not control.  Error outcomes are
given as positive errno numbers (`0` is success), the status seen by the driver is their
negation. -/
structure Env where
  /-- `gpio_to_desc(gpio) != NULL`: the number names a line of a registered chip. -/
  gpio_to_desc : Nat → Bool
  /-- `gpio_is_valid(int number)`. -/
  gpio_is_valid : Int → Bool
  /-- errno of `gpio_direction_output(gpio, 0)`. -/
  gpio_direction_output : Nat → Nat
  /-- `device_create` returned a device for this slot (not an `ERR_PTR`). -/
  device_create : Nat → Bool
  /-- errno of `sysfs_create_group` for the device of this slot. -/
  sysfs_create_group : Nat → Nat

/-! ## External collaborators -/

/-- `test_bit(nr, &word)`. -/
def test_bit (nr : Nat) (word : Nat) : Bool := word.testBit nr

/-- `set_bit(nr, &word)`. -/
def set_bit (nr : Nat) (word : Nat) : Nat := word ||| (1 <<< nr)

/-- `clear_bit(nr, &word)`: the bits of `word` without bit `nr`. -/
def clear_bit (nr : Nat) (word : Nat) : Nat := word ^^^ (word &&& (1 <<< nr))

/-- Conversion of an `unsigned long` argument to a 32-bit `int` parameter. -/
def to_int (x : Nat) : Int :=
  if x % UINT_MOD < INT_HALF then (x % UINT_MOD : Nat) else (x % UINT_MOD : Nat) - (UINT_MOD : Int)

/-- `ktime_set(secs, nsecs)` for the small `secs` the driver passes. -/
def ktime_set (secs : Nat) (nsecs : Nat) : Nat := secs * 1000000000 + nsecs

/-- `hrtimer_start(&timer, tim, HRTIMER_MODE_REL)`: (re)queue the timer `tim` ns from now. -/
def hrtimer_start (tim : Nat) : Option Nat := some tim

/-- Level of a line as last written: `1` high, `0` low. -/
def gpio_get_value (g : gpiolib) (gpio : Nat) : Nat := if gpio ∈ g.high then 1 else 0

/-- `__gpio_set_value(gpio, value)`: drive the line high when `value` is non-zero, low
otherwise. -/
def __gpio_set_value (g : gpiolib) (gpio : Nat) (value : Int) : gpiolib :=
  if value ≠ 0 then
    { g with high := if gpio ∈ g.high then g.high else gpio :: g.high }
  else
    { g with high := g.high.filter (fun p => p ≠ gpio) }

/-- `gpio_request(gpio, label)`: when no chip has the line, `-EPROBE_DEFER` for a valid number and
`-EINVAL` otherwise; `-EBUSY` when the line is already requested; otherwise the line becomes
requested. -/
def gpio_request (env : Env) (g : gpiolib) (gpio : Nat) : Int × gpiolib :=
  if env.gpio_to_desc gpio = false then
    (if env.gpio_is_valid (to_int gpio) = true then - EPROBE_DEFER else - EINVAL, g)
  else if gpio ∈ g.requested then (- EBUSY, g)
  else (0, { g with requested := gpio :: g.requested })

/-- `gpio_free(gpio)`: the line is no longer requested, whoever requested it. -/
def gpio_free (g : gpiolib) (gpio : Nat) : gpiolib :=
  { g with requested := g.requested.filter (fun p => p ≠ gpio) }

/-- `gpio_direction_output(gpio, 0)`: on success the line is an output driven low. -/
def gpio_direction_output (env : Env) (g : gpiolib) (gpio : Nat) : Int × gpiolib :=
  if env.gpio_direction_output gpio = 0 then (0, __gpio_set_value g gpio 0)
  else (- (env.gpio_direction_output gpio : Int), g)

/-! ## Attribute handlers of one channel

`dev_get_drvdata(dev)` is the descriptor `desc`; the handlers return the `ssize_t` result and the
updated descriptor (and GPIO backend where they touch it). -/

/-- `show_duty_cycle`: the text produced by `scnprintf(buf, PAGE_SIZE, "%s\n", desc->duty_cycle)`,
for the kernel formatter `scnprintf` (format, argument). -/
def show_duty_cycle (scnprintf : String → Nat → String) (desc : pwm_desc) : String :=
  scnprintf "%s\n" desc.duty_cycle

/-- `store_duty_cycle`. -/
def store_duty_cycle (desc : pwm_desc) (parsed : kstrtoul_result) (count : Nat) :
    Int × pwm_desc :=
  match parsed with
  | .ok value => (count, { desc with duty_cycle := value % UINT_MOD })
  | _ => (- EIO, desc)

/-- `show_enable`: `scnprintf(buf, PAGE_SIZE, "%s\n", desc->enable)`. -/
def show_enable (scnprintf : String → Nat → String) (desc : pwm_desc) : String :=
  scnprintf "%s\n" desc.enable

/-- `store_enable`. -/
def store_enable (desc : pwm_desc) (g : gpiolib) (parsed : kstrtoul_result) (count : Nat) :
    Int × pwm_desc × gpiolib :=
  match parsed with
  | .ok value =>
    if value ≠ 0 ∧ desc.period ≠ 0 ∧ desc.duty_cycle < desc.period then
      (count, { desc with enable := value % UINT_MOD, hr_timer := hrtimer_start (ktime_set 0 1) }, g)
    else
      (count, { desc with enable := 0 }, __gpio_set_value g desc.gpio 0)
  | _ => (- EIO, desc, g)

/-- `show_period`: `scnprintf(buf, PAGE_SIZE, "%s\n", desc->enable)`. -/
def show_period (scnprintf : String → Nat → String) (desc : pwm_desc) : String :=
  scnprintf "%s\n" desc.enable

/-- `store_period`. -/
def store_period (desc : pwm_desc) (parsed : kstrtoul_result) (count : Nat) :
    Int × pwm_desc :=
  match parsed with
  | .ok value => (count, { desc with period := value % UINT_MOD })
  | _ => (- EIO, desc)

/-! ## Timer callback -/

/-- The `unsigned int` expression
`(desc->value ? desc->duty_cycle : (desc->period - desc->duty_cycle)) * 1000`
evaluated for the level `value`. -/
def ns_next_tick (desc : pwm_desc) (value : Int) : Nat :=
  ((if value ≠ 0 then desc.duty_cycle % UINT_MOD
    else (((desc.period : Int) - (desc.duty_cycle : Int)) % (UINT_MOD : Int)).toNat) * 1000) % UINT_MOD

/-- `soft_pwm_hrtimer_callback`, run on the descriptor that contains the timer.  The returned
`enum hrtimer_restart` is always `HRTIMER_NORESTART` and is not represented. -/
def soft_pwm_hrtimer_callback (desc : pwm_desc) (g : gpiolib) : pwm_desc × gpiolib :=
  if desc.enable = 0 then (desc, g)
  else
    let value := 1 - desc.value
    ({ desc with value := value, hr_timer := hrtimer_start (ktime_set 0 (ns_next_tick desc value)) },
      __gpio_set_value g desc.gpio value)

/-- Expiry of the channel timer: the hrtimer core dequeues the timer and runs the callback. -/
def hrtimer_expire (desc : pwm_desc) (g : gpiolib) : pwm_desc × gpiolib :=
  soft_pwm_hrtimer_callback { desc with hr_timer := none } g

/-! ## Channel table: export and unexport -/

/-- Read access `pwm_table[i]`. -/
def desc_at (tbl : List pwm_desc) (i : Nat) : pwm_desc := tbl.getD i pwm_desc_zero

/-- The state of a freshly loaded module: the zero-filled static table, no line requested, no
device. -/
def State.init : State :=
  { pwm_table := List.replicate MAX_PWM_INSTANCES pwm_desc_zero,
    lib := { requested := [], high := [] },
    devices := [] }

/-- `pwm_export(i)`.  `none` is the invalid dereference `dev->kobj.name` of the `ERR_PTR` that a
failing `device_create` returns (the test `if(dev)` comes after it and never sees `NULL`). -/
def pwm_export (env : Env) (s : State) (i : Nat) : Option (Int × State) :=
  let tbl := s.pwm_table.set i { desc_at s.pwm_table i with value := 0 }
  if env.device_create i = false then none
  else if env.sysfs_create_group i = 0 then
    some (0, { s with pwm_table := tbl,
                      devices := s.devices ++ [{ drvdata := i, name := (desc_at tbl i).gpio }] })
  else
    some (- (env.sysfs_create_group i : Int), { s with pwm_table := tbl })

/-- `pwm_unexport(i)`: `class_find_device` with `match_export`, then `device_unregister`. -/
def pwm_unexport (s : State) (i : Nat) : Int × State :=
  match s.devices.find? (fun dev => dev.drvdata = i) with
  | some _ => (0, { s with devices := s.devices.eraseP (fun dev => dev.drvdata = i) })
  | none => (- ENODEV, s)

/-- The slot search of `export_store` with `n` iterations left at index `i`: the resulting
`status`, the final `i`, and the table. -/
def export_store_loop (gpio : Nat) (tbl : List pwm_desc) : Nat → Nat → Int × Nat × List pwm_desc
  | 0, i => (-1, i, tbl)
  | n + 1, i =>
    if test_bit FLAG_SOFTPWM (desc_at tbl i).flags = false then
      (1, i, tbl.set i { desc_at tbl i with
                          gpio := gpio % UINT_MOD,
                          flags := set_bit FLAG_SOFTPWM (desc_at tbl i).flags })
    else export_store_loop gpio tbl n (i + 1)

/-- The label `done` of `export_store`: `gpio_free` on a non-zero status, and
`return status ? : len`. -/
def export_store_done (s : State) (gpio : Nat) (status : Int) (len : Nat) : Int × State :=
  if status ≠ 0 then (status, { s with lib := gpio_free s.lib (gpio % UINT_MOD) })
  else (len, s)

/-- `export_store`.  `uninit` is the indeterminate content of the local `gpio`, which is what
`done` frees when `kstrtoul` fails. -/
def export_store (env : Env) (s : State) (parsed : kstrtoul_result) (len : Nat) (uninit : Nat) :
    Option (Int × State) :=
  match parsed with
  | .ok gpio =>
    let r1 := gpio_request env s.lib (gpio % UINT_MOD)
    if r1.1 < 0 then some (export_store_done { s with lib := r1.2 } gpio r1.1 len)
    else
      let r2 := gpio_direction_output env r1.2 (gpio % UINT_MOD)
      if r2.1 < 0 then some (export_store_done { s with lib := r2.2 } gpio r2.1 len)
      else
        let r3 := export_store_loop gpio s.pwm_table MAX_PWM_INSTANCES 0
        let s3 : State := { s with lib := r2.2, pwm_table := r3.2.2 }
        if r3.1 < 0 then some (export_store_done s3 gpio r3.1 len)
        else
          match pwm_export env s3 r3.2.1 with
          | none => none
          | some r4 => some (export_store_done r4.2 gpio r4.1 len)
  | e => some (export_store_done s uninit e.ret len)

/-- The loop of `unexport_store` with `n` iterations left at index `i`, carrying `status`. -/
def unexport_store_loop (gpio : Nat) : Nat → Nat → Int → State → Int × State
  | 0, _, status, s => (status, s)
  | n + 1, i, status, s =>
    if test_bit FLAG_SOFTPWM (desc_at s.pwm_table i).flags = true
        ∧ (desc_at s.pwm_table i).gpio = gpio then
      let d : pwm_desc :=
        { desc_at s.pwm_table i with flags := clear_bit FLAG_SOFTPWM (desc_at s.pwm_table i).flags }
      let s1 : State := { s with pwm_table := s.pwm_table.set i d }
      let r := pwm_unexport s1 i
      let s2 : State :=
        if r.1 = 0 then { r.2 with lib := gpio_free r.2.lib (desc_at r.2.pwm_table i).gpio }
        else r.2
      unexport_store_loop gpio n (i + 1) r.1 s2
    else unexport_store_loop gpio n (i + 1) status s

/-- `unexport_store`. -/
def unexport_store (env : Env) (s : State) (parsed : kstrtoul_result) (len : Nat) : Int × State :=
  match parsed with
  | .ok gpio =>
    if env.gpio_is_valid (to_int gpio) = false then (- EINVAL, s)
    else
      let r := unexport_store_loop gpio MAX_PWM_INSTANCES 0 (- EINVAL) s
      if r.1 ≠ 0 then r else (len, r.2)
  | e => (e.ret, s)

/-! ## The attribute files of the device of slot `i`

The driver data of the device published for slot `i` is `&pwm_table[i]`. -/

/-- Write to `pwm<N>/period` of the device of slot `i`. -/
def write_period (s : State) (i : Nat) (parsed : kstrtoul_result) (count : Nat) : Int × State :=
  let r := store_period (desc_at s.pwm_table i) parsed count
  (r.1, { s with pwm_table := s.pwm_table.set i r.2 })

/-- Write to `pwm<N>/duty_cycle` of the device of slot `i`. -/
def write_duty_cycle (s : State) (i : Nat) (parsed : kstrtoul_result) (count : Nat) :
    Int × State :=
  let r := store_duty_cycle (desc_at s.pwm_table i) parsed count
  (r.1, { s with pwm_table := s.pwm_table.set i r.2 })

/-- Write to `pwm<N>/enable` of the device of slot `i`. -/
def write_enable (s : State) (i : Nat) (parsed : kstrtoul_result) (count : Nat) : Int × State :=
  let r := store_enable (desc_at s.pwm_table i) s.lib parsed count
  (r.1, { s with pwm_table := s.pwm_table.set i r.2.1, lib := r.2.2 })

/-- Expiry of the timer embedded in slot `i`. -/
def timer_expire (s : State) (i : Nat) : State :=
  let r := hrtimer_expire (desc_at s.pwm_table i) s.lib
  { s with pwm_table := s.pwm_table.set i r.1, lib := r.2 }

/-- Slot `i` carries the `FLAG_SOFTPWM` bit. -/
def claimed (s : State) (i : Nat) : Bool := test_bit FLAG_SOFTPWM (desc_at s.pwm_table i).flags

/-! ## Operation sequences on one channel -/

/-- Operations on a channel other than writes to `enable`. -/
inductive quiet_op where
  | fire
  | set_duty_cycle (parsed : kstrtoul_result) (count : Nat)
  | set_period (parsed : kstrtoul_result) (count : Nat)

/-- One operation of a sequence without `enable` writes. -/
def quiet_step (c : pwm_desc × gpiolib) : quiet_op → pwm_desc × gpiolib
  | .fire => hrtimer_expire c.1 c.2
  | .set_duty_cycle parsed count => ((store_duty_cycle c.1 parsed count).2, c.2)
  | .set_period parsed count => ((store_period c.1 parsed count).2, c.2)

/-- The channel after `n` consecutive timer expiries. -/
def expire_n : Nat → pwm_desc × gpiolib → pwm_desc × gpiolib
  | 0, c => c
  | n + 1, c => let c1 := expire_n n c; hrtimer_expire c1.1 c1.2

/-! ## Concrete channels, environments and scenarios -/

/-- A running channel on line 17: duty 1, period 2, level low. -/
def chan_1_2 : pwm_desc :=
  { duty_cycle := 1, period := 2, value := 0, hr_timer := none, flags := 1, gpio := 17, enable := 1 }

/-- A running channel whose duty cycle times 1000 does not fit in 32 bits. -/
def chan_wide : pwm_desc :=
  { duty_cycle := 4294968, period := 4294969, value := 0, hr_timer := none, flags := 1, gpio := 17,
    enable := 1 }

/-- The GPIO backend with line 17 requested and low. -/
def lib_17_low : gpiolib := { requested := [17], high := [] }

/-- The GPIO backend with line 17 requested and high. -/
def lib_17_high : gpiolib := { requested := [17], high := [17] }

/-- A configured, disabled channel on line 17: duty 1, period 2, level low. -/
def chan_idle : pwm_desc :=
  { duty_cycle := 1, period := 2, value := 0, hr_timer := none, flags := 1, gpio := 17, enable := 0 }

/-- A channel on line 17 that was running (level high, timer pending) when its period was set to
zero. -/
def chan_high_period_0 : pwm_desc :=
  { duty_cycle := 1, period := 0, value := 1, hr_timer := some 1000, flags := 1, gpio := 17,
    enable := 1 }

/-- An environment in which every external collaborator succeeds. -/
def env_ok : Env :=
  { gpio_to_desc := fun _ => true,
    gpio_is_valid := fun n => decide (0 ≤ n),
    gpio_direction_output := fun _ => 0,
    device_create := fun _ => true,
    sysfs_create_group := fun _ => 0 }

/-- An environment in which `sysfs_create_group` fails with `ENOMEM` (12). -/
def env_sysfs_fails : Env :=
  { gpio_to_desc := fun _ => true,
    gpio_is_valid := fun n => decide (0 ≤ n),
    gpio_direction_output := fun _ => 0,
    device_create := fun _ => true,
    sysfs_create_group := fun _ => 12 }

/-- The state left by a write of `pin` to `export` (the state itself when the call does not
return). -/
def after_export (env : Env) (s : State) (pin : Nat) : State :=
  match export_store env s (.ok pin) 3 0 with
  | some r => r.2
  | none => s

/-- For each slot, the pin it is claimed for, or `none` when it is not claimed. -/
def slot_pins (s : State) : List (Option Nat) :=
  s.pwm_table.map (fun d => if test_bit FLAG_SOFTPWM d.flags = true then some d.gpio else none)

/-- The state after writing the pins of `pins` to `export`, in order. -/
def export_all (env : Env) (s : State) (pins : List Nat) : State :=
  pins.foldl (after_export env) s

/-- The spec's witness scenario up to the unexport: `export(17); set_period(500000);
set_duty_cycle(125000); set_enable(1); unexport(17)`. -/
def used_then_unexported : State :=
  (unexport_store env_ok
    (write_enable
      (write_duty_cycle
        (write_period (after_export env_ok State.init 17) 0 (.ok 500000) 7).2
        0 (.ok 125000) 7).2
      0 (.ok 1) 2).2
    (.ok 17) 3).2

/-- A channel exported on line 17, configured with period 2 and duty cycle 1, enabled, whose
timer has expired once: the level and the pin are high. -/
def running_high : State :=
  timer_expire
    (write_enable
      (write_duty_cycle
        (write_period (after_export env_ok State.init 17) 0 (.ok 2) 2).2
        0 (.ok 1) 2).2
      0 (.ok 1) 2).2
    0

/-- The read format the specification describes for the attributes: the stored integer as
decimal text followed by a newline, whatever the format string. -/
def spec_decimal_text (_format : String) (v : Nat) : String := toString v ++ "\n"

/-! ## Timer callback: level, pin and deadline -/

theorem gpio_get_value_set (g : gpiolib) (gpio : Nat) (value : Int) :
    gpio_get_value (__gpio_set_value g gpio value) gpio = if value ≠ 0 then 1 else 0 := by
  unfold gpio_get_value __gpio_set_value
  by_cases hv : value = 0
  · simp [hv]
  · by_cases hm : gpio ∈ g.high <;> simp [hv, hm]

theorem gpio_get_value_set_other (g : gpiolib) (gpio p : Nat) (value : Int) (hp : p ≠ gpio) :
    gpio_get_value (__gpio_set_value g gpio value) p = gpio_get_value g p := by
  unfold gpio_get_value __gpio_set_value
  by_cases hv : value = 0
  · simp [hv, hp]
  · by_cases hm : gpio ∈ g.high <;> simp [hv, hm, hp]

theorem gpio_set_value_requested (g : gpiolib) (gpio : Nat) (value : Int) :
    (__gpio_set_value g gpio value).requested = g.requested := by
  unfold __gpio_set_value
  split <;> rfl

theorem gpio_set_value_low_twice (g : gpiolib) (gpio : Nat) :
    __gpio_set_value (__gpio_set_value g gpio 0) gpio 0 = __gpio_set_value g gpio 0 := by
  simp [__gpio_set_value, List.filter_filter]

theorem ns_next_tick_high (desc : pwm_desc) (value : Int) (hv : value ≠ 0)
    (h : 1000 * desc.duty_cycle < UINT_MOD) :
    ns_next_tick desc value = 1000 * desc.duty_cycle := by
  simp only [ns_next_tick, UINT_MOD, if_pos hv] at *
  omega

theorem ns_next_tick_low (desc : pwm_desc) (hd : desc.duty_cycle ≤ desc.period)
    (h : 1000 * desc.period < UINT_MOD) :
    ns_next_tick desc 0 = 1000 * (desc.period - desc.duty_cycle) := by
  simp only [ns_next_tick, UINT_MOD] at *
  simp only [ne_eq, not_true_eq_false, if_false]
  omega

theorem expire_n_fields (desc : pwm_desc) (g : gpiolib) (h_en : desc.enable ≠ 0) (n : Nat) :
    (expire_n n (desc, g)).1.enable = desc.enable
    ∧ (expire_n n (desc, g)).1.duty_cycle = desc.duty_cycle
    ∧ (expire_n n (desc, g)).1.period = desc.period
    ∧ (expire_n n (desc, g)).1.gpio = desc.gpio
    ∧ (expire_n n (desc, g)).1.value = if n % 2 = 0 then desc.value else 1 - desc.value := by
  induction n with
  | zero => simp [expire_n]
  | succ k ih =>
    obtain ⟨h1, h2, h3, h4, h5⟩ := ih
    have hen : (expire_n k (desc, g)).1.enable ≠ 0 := by rw [h1]; exact h_en
    simp only [expire_n, hrtimer_expire, soft_pwm_hrtimer_callback, if_neg hen]
    refine ⟨h1, h2, h3, h4, ?_⟩
    simp only [h5]
    rcases Nat.mod_two_eq_zero_or_one k with hk | hk
    · have : (k + 1) % 2 = 1 := by omega
      simp [hk, this]
    · have : (k + 1) % 2 = 0 := by omega
      simp [hk, this]

/-- C1, as stated, fails: with duty_cycle 1 and period 2 the callback raises the level to 1 and
re-arms the timer for 1000 ns, not for duty_cycle = 1 ns; with duty_cycle 4294968 the wait is
704 ns (the 32-bit product wraps). -/
theorem callback_wait_is_not_duty_cycle :
    (soft_pwm_hrtimer_callback chan_1_2 lib_17_low).1.value = 1
    ∧ (soft_pwm_hrtimer_callback chan_1_2 lib_17_low).1.hr_timer = some 1000
    ∧ (soft_pwm_hrtimer_callback chan_1_2 lib_17_low).1.hr_timer ≠ some chan_1_2.duty_cycle
    ∧ (soft_pwm_hrtimer_callback chan_wide lib_17_low).1.value = 1
    ∧ (soft_pwm_hrtimer_callback chan_wide lib_17_low).1.hr_timer = some 704
    ∧ (soft_pwm_hrtimer_callback chan_wide lib_17_low).1.hr_timer ≠ some chan_wide.duty_cycle := by
  decide

/-- C1 (amended): on an enabled channel with level in {0,1}, duty_cycle < period (so period > 0) and
1000 * period below 2^32, the callback flips the level, sets the pin (and no other pin) to the new
level, and re-arms the timer relative to now with 1000 * duty_cycle ns when the new level is 1 and
1000 * (period - duty_cycle) ns when it is 0; consecutive firings alternate the level, each one
leaving the pin at the new level with the corresponding wait. -/
theorem callback_toggles_and_rearms (desc : pwm_desc) (g : gpiolib)
    (h_en : desc.enable ≠ 0) (h_lvl : desc.value = 0 ∨ desc.value = 1)
    (h_d : desc.duty_cycle < desc.period)
    (h_fit : 1000 * desc.period < UINT_MOD) :
    (soft_pwm_hrtimer_callback desc g).1.value = 1 - desc.value
    ∧ ((soft_pwm_hrtimer_callback desc g).1.value = 0 ∨ (soft_pwm_hrtimer_callback desc g).1.value = 1)
    ∧ (gpio_get_value (soft_pwm_hrtimer_callback desc g).2 desc.gpio : Int)
        = (soft_pwm_hrtimer_callback desc g).1.value
    ∧ (∀ p, p ≠ desc.gpio →
        gpio_get_value (soft_pwm_hrtimer_callback desc g).2 p = gpio_get_value g p)
    ∧ ((soft_pwm_hrtimer_callback desc g).1.value = 1 →
        (soft_pwm_hrtimer_callback desc g).1.hr_timer = some (1000 * desc.duty_cycle))
    ∧ ((soft_pwm_hrtimer_callback desc g).1.value = 0 →
        (soft_pwm_hrtimer_callback desc g).1.hr_timer
          = some (1000 * (desc.period - desc.duty_cycle)))
    ∧ (∀ n, (expire_n n (desc, g)).1.value = if n % 2 = 0 then desc.value else 1 - desc.value)
    ∧ (∀ n, (gpio_get_value (expire_n (n + 1) (desc, g)).2 desc.gpio : Int)
        = (expire_n (n + 1) (desc, g)).1.value)
    ∧ (∀ n, (expire_n (n + 1) (desc, g)).1.hr_timer
        = some (if (expire_n (n + 1) (desc, g)).1.value = 1 then 1000 * desc.duty_cycle
                else 1000 * (desc.period - desc.duty_cycle))) := by
  have hfitd : 1000 * desc.duty_cycle < UINT_MOD := by omega
  have hcb : ∀ (d : pwm_desc) (g0 : gpiolib), d.enable = desc.enable →
      d.duty_cycle = desc.duty_cycle → d.period = desc.period → d.gpio = desc.gpio →
      (d.value = 0 ∨ d.value = 1) →
      (soft_pwm_hrtimer_callback d g0).1.value = 1 - d.value
      ∧ (gpio_get_value (soft_pwm_hrtimer_callback d g0).2 desc.gpio : Int)
          = (soft_pwm_hrtimer_callback d g0).1.value
      ∧ (soft_pwm_hrtimer_callback d g0).1.hr_timer
          = some (if (soft_pwm_hrtimer_callback d g0).1.value = 1 then 1000 * desc.duty_cycle
                  else 1000 * (desc.period - desc.duty_cycle)) := by
    intro d g0 e1 e2 e3 e4 hv
    have hen : d.enable ≠ 0 := by rw [e1]; exact h_en
    have hd2 : 1000 * d.duty_cycle < UINT_MOD := by rw [e2]; exact hfitd
    have hp2 : 1000 * d.period < UINT_MOD := by rw [e3]; exact h_fit
    have hle : d.duty_cycle ≤ d.period := by rw [e2, e3]; omega
    simp only [soft_pwm_hrtimer_callback, if_neg hen, hrtimer_start, ktime_set, e4,
      gpio_get_value_set]
    rcases hv with hv | hv
    · have h1 : ns_next_tick d 1 = 1000 * d.duty_cycle :=
        ns_next_tick_high d 1 (by decide) hd2
      simp [h1, hv, e2]
    · have h0 : ns_next_tick d 0 = 1000 * (d.period - d.duty_cycle) :=
        ns_next_tick_low d hle hp2
      simp [h0, hv, e2, e3]
  obtain ⟨c1, c2, c3⟩ := hcb desc g rfl rfl rfl rfl h_lvl
  have hflip : (soft_pwm_hrtimer_callback desc g).1.value = 0
      ∨ (soft_pwm_hrtimer_callback desc g).1.value = 1 := by
    rw [c1]; rcases h_lvl with h | h <;> simp [h]
  have hstep : ∀ n, (gpio_get_value (expire_n (n + 1) (desc, g)).2 desc.gpio : Int)
        = (expire_n (n + 1) (desc, g)).1.value
      ∧ (expire_n (n + 1) (desc, g)).1.hr_timer
        = some (if (expire_n (n + 1) (desc, g)).1.value = 1 then 1000 * desc.duty_cycle
                else 1000 * (desc.period - desc.duty_cycle)) := by
    intro n
    obtain ⟨f1, f2, f3, f4, f5⟩ := expire_n_fields desc g h_en n
    have hv : (expire_n n (desc, g)).1.value = 0 ∨ (expire_n n (desc, g)).1.value = 1 := by
      rw [f5]; split <;> rcases h_lvl with h | h <;> simp [h]
    obtain ⟨_, d2, d3⟩ := hcb { (expire_n n (desc, g)).1 with hr_timer := none }
      (expire_n n (desc, g)).2 f1 f2 f3 f4 hv
    exact ⟨d2, d3⟩
  refine ⟨c1, hflip, c2, ?_, ?_, ?_, ?_, fun n => (hstep n).1, fun n => (hstep n).2⟩
  · intro p hp
    simp only [soft_pwm_hrtimer_callback, if_neg h_en]
    exact gpio_get_value_set_other g desc.gpio p _ hp
  · intro h1
    rw [c3, if_pos h1]
  · intro h0
    rw [c3, h0]
    simp
  · intro n
    exact (expire_n_fields desc g h_en n).2.2.2.2

theorem callback_toggles_and_rearms_witness :
    (soft_pwm_hrtimer_callback chan_1_2 lib_17_low).1.value = 1
    ∧ (soft_pwm_hrtimer_callback chan_1_2 lib_17_low).1.hr_timer = some (1000 * 1) :=
  have h := callback_toggles_and_rearms chan_1_2 lib_17_low (by decide) (by decide) (by decide)
    (by decide)
  ⟨h.1, h.2.2.2.2.1 h.1⟩

/-! ## Writes to `enable` -/

theorem store_enable_valid_config (desc : pwm_desc) (g : gpiolib) (value count : Nat)
    (h_v : value ≠ 0) (h_d : desc.duty_cycle < desc.period) :
    store_enable desc g (.ok value) count
      = ((count : Int), { desc with enable := value % UINT_MOD, hr_timer := some 1 }, g) := by
  have hp : desc.period ≠ 0 := by omega
  simp [store_enable, h_v, hp, h_d, hrtimer_start, ktime_set]

/-- C2 (code defect): on a channel with duty_cycle 1 < period 2, writing 4294967296 (a non-zero
unsigned long on a 64-bit kernel) to enable returns success and arms the timer for 1 ns, but the
32-bit enable field receives 0, so the channel is not enabled: the timer expiry that follows
leaves the level at 0 and does not re-arm. -/
theorem store_enable_truncates_value :
    (store_enable chan_idle lib_17_low (.ok 4294967296) 11).1 = 11
    ∧ (store_enable chan_idle lib_17_low (.ok 4294967296) 11).2.1.enable = 0
    ∧ (store_enable chan_idle lib_17_low (.ok 4294967296) 11).2.1.hr_timer = some 1
    ∧ (hrtimer_expire (store_enable chan_idle lib_17_low (.ok 4294967296) 11).2.1
        (store_enable chan_idle lib_17_low (.ok 4294967296) 11).2.2).1.value = 0
    ∧ (hrtimer_expire (store_enable chan_idle lib_17_low (.ok 4294967296) 11).2.1
        (store_enable chan_idle lib_17_low (.ok 4294967296) 11).2.2).1.hr_timer = none := by
  decide

/-- C3, as stated, fails: on a channel with period 0 whose pin is high, writing 1 to enable
returns success and leaves the channel disabled, but the pin goes from high to low. -/
theorem store_enable_invalid_config_changes_pin :
    gpio_get_value lib_17_high chan_high_period_0.gpio = 1
    ∧ (store_enable chan_high_period_0 lib_17_high (.ok 1) 2).1 = 2
    ∧ (store_enable chan_high_period_0 lib_17_high (.ok 1) 2).2.1.enable = 0
    ∧ gpio_get_value (store_enable chan_high_period_0 lib_17_high (.ok 1) 2).2.2
        chan_high_period_0.gpio = 0 := by
  decide

/-- C3 (amended): for every channel with period = 0 or duty_cycle >= period (whatever its enable
flag and pin level), writing any parsed value to enable returns success (the byte count), leaves
enable = 0, arms no timer (the timer state is as before), and drives the channel's pin low; the
other pins and the set of requested lines are as they were. -/
theorem store_enable_invalid_config (desc : pwm_desc) (g : gpiolib) (value count : Nat)
    (h : desc.period = 0 ∨ desc.period ≤ desc.duty_cycle) :
    (store_enable desc g (.ok value) count).1 = count
    ∧ (store_enable desc g (.ok value) count).2.1.enable = 0
    ∧ (store_enable desc g (.ok value) count).2.1.hr_timer = desc.hr_timer
    ∧ gpio_get_value (store_enable desc g (.ok value) count).2.2 desc.gpio = 0
    ∧ (∀ p, p ≠ desc.gpio →
        gpio_get_value (store_enable desc g (.ok value) count).2.2 p = gpio_get_value g p)
    ∧ (store_enable desc g (.ok value) count).2.2.requested = g.requested := by
  have hc : ¬ (value ≠ 0 ∧ desc.period ≠ 0 ∧ desc.duty_cycle < desc.period) := by
    rintro ⟨_, h1, h2⟩
    rcases h with h | h
    · exact h1 h
    · omega
  simp only [store_enable, if_neg hc]
  refine ⟨trivial, trivial, trivial, ?_, ?_, ?_⟩
  · simpa using gpio_get_value_set g desc.gpio 0
  · intro p hp
    exact gpio_get_value_set_other g desc.gpio p 0 hp
  · exact gpio_set_value_requested g desc.gpio 0

theorem store_enable_invalid_config_witness :
    (store_enable chan_high_period_0 lib_17_high (.ok 1) 2).1 = (2 : Nat)
    ∧ gpio_get_value (store_enable chan_high_period_0 lib_17_high (.ok 1) 2).2.2
        chan_high_period_0.gpio = 0 :=
  have h := store_enable_invalid_config chan_high_period_0 lib_17_high 1 2 (by decide)
  ⟨h.1, h.2.2.2.1⟩

/-! ## Disable -/

theorem store_enable_zero (desc : pwm_desc) (g : gpiolib) (count : Nat) :
    store_enable desc g (.ok 0) count
      = ((count : Int), { desc with enable := 0 }, __gpio_set_value g desc.gpio 0) := by
  simp [store_enable]

theorem callback_disabled (desc : pwm_desc) (g : gpiolib) (h : desc.enable = 0) :
    soft_pwm_hrtimer_callback desc g = (desc, g) := by
  simp [soft_pwm_hrtimer_callback, h]

theorem quiet_run_invariant (d0 : pwm_desc) (g0 : gpiolib) (ops : List quiet_op) :
    ∀ c : pwm_desc × gpiolib,
      c.1.enable = 0 → c.2 = g0 → c.1.value = d0.value → c.1.gpio = d0.gpio →
      (c.1.hr_timer = none ∨ c.1.hr_timer = d0.hr_timer) →
      (ops.foldl quiet_step c).1.enable = 0
      ∧ (ops.foldl quiet_step c).2 = g0
      ∧ (ops.foldl quiet_step c).1.value = d0.value
      ∧ (ops.foldl quiet_step c).1.gpio = d0.gpio
      ∧ ((ops.foldl quiet_step c).1.hr_timer = none
          ∨ (ops.foldl quiet_step c).1.hr_timer = d0.hr_timer) := by
  induction ops with
  | nil => intro c h1 h2 h3 h4 h5; exact ⟨h1, h2, h3, h4, h5⟩
  | cons op rest ih =>
    intro c h1 h2 h3 h4 h5
    rw [List.foldl_cons]
    apply ih
    · cases op with
      | fire => simp [quiet_step, hrtimer_expire, soft_pwm_hrtimer_callback, h1]
      | set_duty_cycle parsed count => cases parsed <;> simp [quiet_step, store_duty_cycle, h1]
      | set_period parsed count => cases parsed <;> simp [quiet_step, store_period, h1]
    · cases op with
      | fire => simp [quiet_step, hrtimer_expire, soft_pwm_hrtimer_callback, h1, h2]
      | set_duty_cycle parsed count => simp [quiet_step, h2]
      | set_period parsed count => simp [quiet_step, h2]
    · cases op with
      | fire => simp [quiet_step, hrtimer_expire, soft_pwm_hrtimer_callback, h1, h3]
      | set_duty_cycle parsed count => cases parsed <;> simp [quiet_step, store_duty_cycle, h3]
      | set_period parsed count => cases parsed <;> simp [quiet_step, store_period, h3]
    · cases op with
      | fire => simp [quiet_step, hrtimer_expire, soft_pwm_hrtimer_callback, h1, h4]
      | set_duty_cycle parsed count => cases parsed <;> simp [quiet_step, store_duty_cycle, h4]
      | set_period parsed count => cases parsed <;> simp [quiet_step, store_period, h4]
    · cases op with
      | fire => simp [quiet_step, hrtimer_expire, soft_pwm_hrtimer_callback, h1]
      | set_duty_cycle parsed count => cases parsed <;> simp [quiet_step, store_duty_cycle, h5]
      | set_period parsed count => cases parsed <;> simp [quiet_step, store_period, h5]

/-- C4: for every channel state, writing 0 to enable returns success and leaves enable = 0 and
the pin low; after any further sequence of timer expiries and duty_cycle/period writes the
channel still has enable = 0, the GPIO backend is exactly as the disable left it (pin low), the
level field and the pin number are unchanged and the timer was never re-armed; the callback run
in that state changes nothing at all, and so does another write of 0 to enable. -/
theorem disable_stops_output (desc : pwm_desc) (g : gpiolib) (count : Nat)
    (ops : List quiet_op) (count2 : Nat) :
    (store_enable desc g (.ok 0) count).1 = count
    ∧ (store_enable desc g (.ok 0) count).2.1.enable = 0
    ∧ gpio_get_value (store_enable desc g (.ok 0) count).2.2 desc.gpio = 0
    ∧ (ops.foldl quiet_step (store_enable desc g (.ok 0) count).2).1.enable = 0
    ∧ (ops.foldl quiet_step (store_enable desc g (.ok 0) count).2).2
        = (store_enable desc g (.ok 0) count).2.2
    ∧ gpio_get_value (ops.foldl quiet_step (store_enable desc g (.ok 0) count).2).2 desc.gpio = 0
    ∧ (ops.foldl quiet_step (store_enable desc g (.ok 0) count).2).1.value = desc.value
    ∧ (ops.foldl quiet_step (store_enable desc g (.ok 0) count).2).1.gpio = desc.gpio
    ∧ ((ops.foldl quiet_step (store_enable desc g (.ok 0) count).2).1.hr_timer = none
        ∨ (ops.foldl quiet_step (store_enable desc g (.ok 0) count).2).1.hr_timer = desc.hr_timer)
    ∧ soft_pwm_hrtimer_callback (ops.foldl quiet_step (store_enable desc g (.ok 0) count).2).1
          (ops.foldl quiet_step (store_enable desc g (.ok 0) count).2).2
        = ops.foldl quiet_step (store_enable desc g (.ok 0) count).2
    ∧ store_enable (ops.foldl quiet_step (store_enable desc g (.ok 0) count).2).1
          (ops.foldl quiet_step (store_enable desc g (.ok 0) count).2).2 (.ok 0) count2
        = ((count2 : Int), ops.foldl quiet_step (store_enable desc g (.ok 0) count).2) := by
  rw [store_enable_zero]
  have hlow : gpio_get_value (__gpio_set_value g desc.gpio 0) desc.gpio = 0 := by
    simpa using gpio_get_value_set g desc.gpio 0
  obtain ⟨i1, i2, i3, i4, i5⟩ := quiet_run_invariant desc (__gpio_set_value g desc.gpio 0) ops
    ({ desc with enable := 0 }, __gpio_set_value g desc.gpio 0) rfl rfl rfl rfl (Or.inr rfl)
  refine ⟨rfl, rfl, hlow, i1, i2, ?_, i3, i4, i5, callback_disabled _ _ i1, ?_⟩
  · rw [i2]; exact hlow
  · generalize ops.foldl quiet_step ({ desc with enable := 0 }, __gpio_set_value g desc.gpio 0)
      = c at i1 i2 i4
    obtain ⟨d, g1⟩ := c
    cases d
    simp only at i1 i2 i4
    subst i1 i2 i4
    rw [store_enable_zero]
    simp only [gpio_set_value_low_twice]

/-! ## Reading the configuration back -/

theorem store_period_accepts (desc : pwm_desc) (v count : Nat) :
    store_period desc (.ok v) count = ((count : Int), { desc with period := v % UINT_MOD }) := rfl

theorem store_duty_cycle_accepts (desc : pwm_desc) (v count : Nat) :
    store_duty_cycle desc (.ok v) count = ((count : Int), { desc with duty_cycle := v % UINT_MOD }) := rfl

/-- C9 (code defect): whatever the kernel formatter does with the format and argument it is
handed, the text read from period does not depend on the value written to period: show_period
hands the formatter the enable field, which store_period leaves alone.  So after
set_period(500000) and after set_period(1) the same text is read, and it is the text read before
the write; even with a formatter that prints decimal text, a fresh channel reads back 0 after
set_period(500000).  A duty cycle of 4294967297 is stored as 1. -/
theorem show_period_ignores_written_period (scnprintf : String → Nat → String) (desc : pwm_desc)
    (count : Nat) :
    show_period scnprintf (store_period desc (.ok 500000) count).2
      = show_period scnprintf (store_period desc (.ok 1) count).2
    ∧ show_period scnprintf (store_period desc (.ok 500000) count).2
      = show_period scnprintf desc
    ∧ show_period scnprintf (store_period desc (.ok 500000) count).2
      = scnprintf "%s\n" desc.enable
    ∧ show_period spec_decimal_text (store_period pwm_desc_zero (.ok 500000) 7).2 = "0\n"
    ∧ show_period spec_decimal_text (store_period pwm_desc_zero (.ok 500000) 7).2
      ≠ spec_decimal_text "" 500000
    ∧ show_duty_cycle spec_decimal_text (store_duty_cycle pwm_desc_zero (.ok 4294967297) 7).2
      = "1\n" := by
  refine ⟨rfl, rfl, rfl, ?_, ?_, ?_⟩ <;> decide

/-! ## Channel table -/

theorem test_bit_set_bit (w : Nat) : test_bit FLAG_SOFTPWM (set_bit FLAG_SOFTPWM w) = true := by
  simp [test_bit, set_bit, FLAG_SOFTPWM]

theorem test_bit_clear_bit (w : Nat) : test_bit FLAG_SOFTPWM (clear_bit FLAG_SOFTPWM w) = false := by
  simp [test_bit, clear_bit, FLAG_SOFTPWM]
  omega

theorem desc_at_set_eq (tbl : List pwm_desc) (k : Nat) (d : pwm_desc) (h : k < tbl.length) :
    desc_at (tbl.set k d) k = d := by
  simp [desc_at, List.getD_eq_getElem?_getD, h]

theorem desc_at_set_ne (tbl : List pwm_desc) (k j : Nat) (d : pwm_desc) (h : j ≠ k) :
    desc_at (tbl.set k d) j = desc_at tbl j := by
  simp [desc_at, List.getD_eq_getElem?_getD, List.getElem?_set_ne (Ne.symm h)]

theorem export_store_loop_full (gpio : Nat) (tbl : List pwm_desc) (n : Nat) :
    ∀ i, (∀ j, i ≤ j → j < i + n → test_bit FLAG_SOFTPWM (desc_at tbl j).flags = true) →
      export_store_loop gpio tbl n i = (-1, i + n, tbl) := by
  induction n with
  | zero => intro i _; rfl
  | succ m ih =>
    intro i h
    have hi : test_bit FLAG_SOFTPWM (desc_at tbl i).flags = true := h i (le_refl i) (by omega)
    have hrest := ih (i + 1) (fun j h1 h2 => h j (by omega) (by omega))
    simp only [export_store_loop, hi, Bool.true_eq_false, if_false, hrest]
    congr 2
    omega

theorem export_store_loop_found (gpio : Nat) (tbl : List pwm_desc) (n : Nat) :
    ∀ i k, i ≤ k → k < i + n → test_bit FLAG_SOFTPWM (desc_at tbl k).flags = false →
      (∀ j, i ≤ j → j < k → test_bit FLAG_SOFTPWM (desc_at tbl j).flags = true) →
      export_store_loop gpio tbl n i
        = (1, k, tbl.set k { desc_at tbl k with
                              gpio := gpio % UINT_MOD,
                              flags := set_bit FLAG_SOFTPWM (desc_at tbl k).flags }) := by
  induction n with
  | zero => intro i k h1 h2; omega
  | succ m ih =>
    intro i k h1 h2 hfree hbelow
    by_cases hik : i = k
    · subst hik
      simp only [export_store_loop, hfree, if_true]
    · have hi : test_bit FLAG_SOFTPWM (desc_at tbl i).flags = true :=
        hbelow i (le_refl i) (by omega)
      simp only [export_store_loop, hi, Bool.true_eq_false, if_false]
      exact ih (i + 1) k (by omega) (by omega) hfree (fun j h3 h4 => hbelow j (by omega) h4)

theorem unexport_store_loop_no_match (gpio : Nat) (s : State) (n : Nat) :
    ∀ i status,
      (∀ j, i ≤ j → j < i + n →
        ¬ (test_bit FLAG_SOFTPWM (desc_at s.pwm_table j).flags = true
            ∧ (desc_at s.pwm_table j).gpio = gpio)) →
      unexport_store_loop gpio n i status s = (status, s) := by
  induction n with
  | zero => intro i status _; rfl
  | succ m ih =>
    intro i status h
    have hi := h i (le_refl i) (by omega)
    simp only [unexport_store_loop, if_neg hi]
    exact ih (i + 1) status (fun j h1 h2 => h j (by omega) (by omega))

/-- C8: for every table state and every parsed pin number that is not the pin of any claimed
slot, unexport returns the failure status (the code's -EINVAL) and the whole state (every field
of every slot, the GPIO backend and the published devices) is exactly as before. -/
theorem unexport_unknown_pin (env : Env) (s : State) (pin len : Nat)
    (h : ∀ i, i < MAX_PWM_INSTANCES →
      ¬ (claimed s i = true ∧ (desc_at s.pwm_table i).gpio = pin)) :
    unexport_store env s (.ok pin) len = (- EINVAL, s) := by
  have hloop := unexport_store_loop_no_match pin s MAX_PWM_INSTANCES 0 (- EINVAL)
    (fun j _ h2 => h j (by omega))
  unfold unexport_store
  by_cases hv : env.gpio_is_valid (to_int pin) = false
  · simp only [hv, if_true]
  · simp only [if_neg hv, hloop]
    simp [EINVAL]

theorem unexport_unknown_pin_witness :
    unexport_store env_ok (after_export env_ok State.init 17) (.ok 18) 3
      = (- EINVAL, after_export env_ok State.init 17) :=
  unexport_unknown_pin env_ok (after_export env_ok State.init 17) 18 3 (by decide)

theorem export_store_accepts (env : Env) (s : State) (pin len uninit k : Nat)
    (hpin : pin < UINT_MOD) (h1 : env.gpio_to_desc pin = true) (h2 : pin ∉ s.lib.requested)
    (h3 : env.gpio_direction_output pin = 0) (h4 : env.device_create k = true)
    (h5 : env.sysfs_create_group k = 0)
    (hk : k < MAX_PWM_INSTANCES) (hlen : k < s.pwm_table.length)
    (hfree : claimed s k = false) (hbelow : ∀ j, j < k → claimed s j = true) :
    export_store env s (.ok pin) len uninit
      = some ((len : Int),
          { pwm_table := s.pwm_table.set k
              { desc_at s.pwm_table k with
                gpio := pin,
                flags := set_bit FLAG_SOFTPWM (desc_at s.pwm_table k).flags,
                value := 0 },
            lib := { requested := pin :: s.lib.requested,
                     high := s.lib.high.filter (fun p => p ≠ pin) },
            devices := s.devices ++ [{ drvdata := k, name := pin }] }) := by
  have hmod : pin % UINT_MOD = pin := Nat.mod_eq_of_lt hpin
  have hloop := export_store_loop_found pin s.pwm_table MAX_PWM_INSTANCES 0 k (Nat.zero_le k)
    (by omega) hfree (fun j _ hj => hbelow j hj)
  have hlen2 : k < (s.pwm_table.set k
      { desc_at s.pwm_table k with
        gpio := pin % UINT_MOD,
        flags := set_bit FLAG_SOFTPWM (desc_at s.pwm_table k).flags }).length := by
    simpa using hlen
  simp only [export_store, gpio_request, gpio_direction_output, hmod, h1, h2, h3,
    Bool.true_eq_false, if_false, lt_self_iff_false, hloop, pwm_export, h4, if_true,
    export_store_done, desc_at_set_eq _ _ _ hlen, desc_at_set_eq _ _ _ hlen2, List.set_set]
  simp [__gpio_set_value, h5]

theorem export_store_busy (env : Env) (s : State) (pin len uninit : Nat)
    (hpin : pin < UINT_MOD) (h1 : env.gpio_to_desc pin = true) (h2 : pin ∉ s.lib.requested)
    (h3 : env.gpio_direction_output pin = 0)
    (hfull : ∀ j, j < MAX_PWM_INSTANCES → claimed s j = true) :
    export_store env s (.ok pin) len uninit
      = some (-1,
          { s with lib := { requested := s.lib.requested,
                            high := s.lib.high.filter (fun p => p ≠ pin) } }) := by
  have hmod : pin % UINT_MOD = pin := Nat.mod_eq_of_lt hpin
  have hloop := export_store_loop_full pin s.pwm_table MAX_PWM_INSTANCES 0
    (fun j _ hj => hfull j (by omega))
  simp only [export_store, gpio_request, gpio_direction_output, hmod, h1, h2, h3,
    Bool.true_eq_false, if_false, lt_self_iff_false, hloop, export_store_done]
  simp [__gpio_set_value, gpio_free]
  intro a ha e
  exact h2 (e ▸ ha)

/-- C5: for every 5-slot table and every pin the GPIO backend accepts (the line exists, is not
held, and can be made an output), with publication succeeding, export succeeds exactly when some
slot is unclaimed; on success the slot claimed is the unclaimed slot of lowest index, its pin is
the exported pin and every other slot is unchanged; with all slots claimed export fails (the
status for no free slot is -1) and the table, the held lines and the devices are unchanged.
In particular five exports of distinct pins into the empty table take slots 0,1,2,3,4 in order,
the sixth fails, and after the pin of any slot k is unexported the next export gets slot k. -/
theorem export_store_slot_selection :
    (∀ (env : Env) (s : State) (pin len uninit : Nat),
      s.pwm_table.length = MAX_PWM_INSTANCES → pin < UINT_MOD →
      env.gpio_to_desc pin = true → pin ∉ s.lib.requested →
      env.gpio_direction_output pin = 0 →
      (∀ i, env.device_create i = true) → (∀ i, env.sysfs_create_group i = 0) →
      (((∃ i, i < MAX_PWM_INSTANCES ∧ claimed s i = false)
          ↔ ∃ s1, export_store env s (.ok pin) len uninit = some ((len : Int), s1))
      ∧ (∀ s1, export_store env s (.ok pin) len uninit = some ((len : Int), s1) →
          ∃ k, k < MAX_PWM_INSTANCES ∧ claimed s k = false ∧ (∀ j, j < k → claimed s j = true)
            ∧ claimed s1 k = true ∧ (desc_at s1.pwm_table k).gpio = pin
            ∧ (∀ j, j ≠ k → desc_at s1.pwm_table j = desc_at s.pwm_table j)
            ∧ s1.pwm_table.length = MAX_PWM_INSTANCES)
      ∧ ((∀ i, i < MAX_PWM_INSTANCES → claimed s i = true) →
          ∃ s1, export_store env s (.ok pin) len uninit = some (-1, s1)
            ∧ s1.pwm_table = s.pwm_table ∧ s1.lib.requested = s.lib.requested
            ∧ s1.devices = s.devices)))
    ∧ (∀ (env : Env) (p0 p1 p2 p3 p4 p5 len k : Nat),
      (∀ p ∈ [p0, p1, p2, p3, p4, p5], p < UINT_MOD) → [p0, p1, p2, p3, p4, p5].Nodup →
      (∀ p, env.gpio_to_desc p = true) → (∀ p, env.gpio_direction_output p = 0) →
      (∀ i, env.device_create i = true) → (∀ i, env.sysfs_create_group i = 0) →
      (∀ n, env.gpio_is_valid n = true) → k < MAX_PWM_INSTANCES →
      ((export_store env State.init (.ok p0) len 0
          = some ((len : Int), export_all env State.init [p0])
        ∧ slot_pins (export_all env State.init [p0]) = [some p0, none, none, none, none])
      ∧ (export_store env (export_all env State.init [p0]) (.ok p1) len 0
          = some ((len : Int), export_all env State.init [p0, p1])
        ∧ slot_pins (export_all env State.init [p0, p1]) = [some p0, some p1, none, none, none])
      ∧ (export_store env (export_all env State.init [p0, p1]) (.ok p2) len 0
          = some ((len : Int), export_all env State.init [p0, p1, p2])
        ∧ slot_pins (export_all env State.init [p0, p1, p2])
          = [some p0, some p1, some p2, none, none])
      ∧ (export_store env (export_all env State.init [p0, p1, p2]) (.ok p3) len 0
          = some ((len : Int), export_all env State.init [p0, p1, p2, p3])
        ∧ slot_pins (export_all env State.init [p0, p1, p2, p3])
          = [some p0, some p1, some p2, some p3, none])
      ∧ (export_store env (export_all env State.init [p0, p1, p2, p3]) (.ok p4) len 0
          = some ((len : Int), export_all env State.init [p0, p1, p2, p3, p4])
        ∧ slot_pins (export_all env State.init [p0, p1, p2, p3, p4])
          = [some p0, some p1, some p2, some p3, some p4])
      ∧ (export_store env (export_all env State.init [p0, p1, p2, p3, p4]) (.ok p5) len 0
          = some (-1, export_all env State.init [p0, p1, p2, p3, p4, p5])
        ∧ slot_pins (export_all env State.init [p0, p1, p2, p3, p4, p5])
          = [some p0, some p1, some p2, some p3, some p4])
      ∧ ((unexport_store env (export_all env State.init [p0, p1, p2, p3, p4, p5])
            (.ok ([p0, p1, p2, p3, p4].getD k 0)) len).1 = (len : Int)
        ∧ slot_pins (unexport_store env (export_all env State.init [p0, p1, p2, p3, p4, p5])
            (.ok ([p0, p1, p2, p3, p4].getD k 0)) len).2
          = [some p0, some p1, some p2, some p3, some p4].set k none)
      ∧ ((export_store env (unexport_store env (export_all env State.init [p0, p1, p2, p3, p4, p5])
            (.ok ([p0, p1, p2, p3, p4].getD k 0)) len).2 (.ok p5) len 0).map Prod.fst
          = some (len : Int)
        ∧ slot_pins (after_export env
            (unexport_store env (export_all env State.init [p0, p1, p2, p3, p4, p5])
              (.ok ([p0, p1, p2, p3, p4].getD k 0)) len).2 p5)
          = [some p0, some p1, some p2, some p3, some p4].set k (some p5)))) := by
  refine ⟨?_, ?_⟩
  · intro env s pin len uninit hlen hpin h1 h2 h3 h4 h5
    have hfullcase : (∀ i, i < MAX_PWM_INSTANCES → claimed s i = true) →
        ∀ s1, export_store env s (.ok pin) len uninit ≠ some ((len : Int), s1) := by
      intro hfull s1 he
      rw [export_store_busy env s pin len uninit hpin h1 h2 h3 hfull] at he
      have h := congrArg (fun r => (Option.map Prod.fst r)) he
      simp only [Option.map_some'] at h
      have h6 : (-1 : Int) = (len : Int) := Option.some.inj h
      omega
    have hfreecase : (∃ i, i < MAX_PWM_INSTANCES ∧ claimed s i = false) →
        ∃ k, k < MAX_PWM_INSTANCES ∧ claimed s k = false ∧ (∀ j, j < k → claimed s j = true)
          ∧ export_store env s (.ok pin) len uninit
            = some ((len : Int),
                { pwm_table := s.pwm_table.set k
                    { desc_at s.pwm_table k with
                      gpio := pin,
                      flags := set_bit FLAG_SOFTPWM (desc_at s.pwm_table k).flags,
                      value := 0 },
                  lib := { requested := pin :: s.lib.requested,
                           high := s.lib.high.filter (fun p => p ≠ pin) },
                  devices := s.devices ++ [{ drvdata := k, name := pin }] }) := by
      intro hex
      have hk := Nat.find_spec hex
      have hmin : ∀ j, j < Nat.find hex → claimed s j = true := by
        intro j hj
        have hnot := Nat.find_min hex hj
        have hjlt : j < MAX_PWM_INSTANCES := lt_trans hj hk.1
        cases hc : claimed s j with
        | true => rfl
        | false => exact absurd ⟨hjlt, hc⟩ hnot
      exact ⟨Nat.find hex, hk.1, hk.2, hmin,
        export_store_accepts env s pin len uninit (Nat.find hex) hpin h1 h2 h3 (h4 _) (h5 _) hk.1
          (by rw [hlen]; exact hk.1) hk.2 hmin⟩
    have hdich : (∃ i, i < MAX_PWM_INSTANCES ∧ claimed s i = false)
        ∨ (∀ i, i < MAX_PWM_INSTANCES → claimed s i = true) := by
      by_cases hex : ∃ i, i < MAX_PWM_INSTANCES ∧ claimed s i = false
      · exact Or.inl hex
      · right
        intro i hi
        cases hc : claimed s i with
        | true => rfl
        | false => exact absurd ⟨i, hi, hc⟩ hex
    refine ⟨⟨?_, ?_⟩, ?_, ?_⟩
    · intro hex
      obtain ⟨k, _, _, _, he⟩ := hfreecase hex
      exact ⟨_, he⟩
    · rintro ⟨s1, he⟩
      rcases hdich with hex | hfull
      · exact hex
      · exact absurd he (hfullcase hfull s1)
    · intro s1 he
      rcases hdich with hex | hfull
      · obtain ⟨k, hk, hfree, hbelow, he2⟩ := hfreecase hex
        rw [he2] at he
        have hs : s1 = _ := (Prod.mk.inj (Option.some.inj he)).2.symm
        have hklen : k < s.pwm_table.length := by rw [hlen]; exact hk
        subst hs
        refine ⟨k, hk, hfree, hbelow, ?_, ?_, ?_, ?_⟩
        · simp only [claimed, desc_at_set_eq _ _ _ hklen, test_bit_set_bit]
        · simp only [desc_at_set_eq _ _ _ hklen]
        · intro j hj
          exact desc_at_set_ne _ _ _ _ hj
        · simpa using hlen
      · exact absurd he (hfullcase hfull s1)
    · intro hfull
      exact ⟨_, export_store_busy env s pin len uninit hpin h1 h2 h3 hfull, rfl, rfl, rfl⟩

  · intro env p0 p1 p2 p3 p4 p5 len k hlt hnd e1 e2 e3 e4 e5 hk
    simp only [List.mem_cons, List.mem_singleton, forall_eq_or_imp, forall_eq, List.not_mem_nil,
      IsEmpty.forall_iff, implies_true, and_true] at hlt
    obtain ⟨l0, l1, l2, l3, l4, l5⟩ := hlt
    have m0 : p0 % UINT_MOD = p0 := Nat.mod_eq_of_lt l0
    have m1 : p1 % UINT_MOD = p1 := Nat.mod_eq_of_lt l1
    have m2 : p2 % UINT_MOD = p2 := Nat.mod_eq_of_lt l2
    have m3 : p3 % UINT_MOD = p3 := Nat.mod_eq_of_lt l3
    have m4 : p4 % UINT_MOD = p4 := Nat.mod_eq_of_lt l4
    have m5 : p5 % UINT_MOD = p5 := Nat.mod_eq_of_lt l5
    simp only [List.nodup_cons, List.mem_cons, List.mem_singleton, not_or, List.not_mem_nil,
      not_false_eq_true, List.nodup_nil, and_true] at hnd
    obtain ⟨⟨a1, a2, a3, a4, a5⟩, ⟨b2, b3, b4, b5⟩, ⟨c3, c4, c5⟩, ⟨d4, d5⟩, f5⟩ := hnd
    simp only [MAX_PWM_INSTANCES] at hk
    interval_cases k <;>
    simp [export_all, after_export, export_store, gpio_request, gpio_direction_output,
      export_store_loop, pwm_export, export_store_done, State.init, MAX_PWM_INSTANCES, desc_at,
      pwm_desc_zero, test_bit, set_bit, clear_bit, FLAG_SOFTPWM, __gpio_set_value, gpio_free,
      slot_pins, unexport_store, unexport_store_loop, pwm_unexport,
      e1, e2, e3, e4, e5, m0, m1, m2, m3, m4, m5, List.replicate,
      a1, a2, a3, a4, a5, b2, b3, b4, b5, c3, c4, c5, d4, d5, f5,
      Ne.symm a1, Ne.symm a2, Ne.symm a3, Ne.symm a4, Ne.symm a5, Ne.symm b2, Ne.symm b3,
      Ne.symm b4, Ne.symm b5, Ne.symm c3, Ne.symm c4, Ne.symm c5, Ne.symm d4, Ne.symm d5,
      Ne.symm f5, EINVAL]


theorem export_store_slot_selection_witness :
    ∃ s1, export_store env_ok State.init (.ok 17) 3 0 = some (((3 : Nat) : Int), s1) :=
  ((export_store_slot_selection.1 env_ok State.init 17 3 0 (by decide) (by decide) rfl
    (by decide) rfl (fun _ => rfl) (fun _ => rfl)).1).mp ⟨0, by decide, by decide⟩

/-! ## Failing exports, re-export, level and pin -/

/-- C6 (code defect): with pin 17 exported in slot 0 and held, a second write of 17 to export
fails with -EBUSY at gpio_request, and the `done` path then frees line 17: the slot is still
claimed and published but its line is no longer held.  And when sysfs_create_group fails during
an export into an empty table, export fails with slot 0 left claimed although the line was freed
and no device is published. -/
theorem export_store_failure_not_rolled_back :
    claimed (after_export env_ok State.init 17) 0 = true
    ∧ (after_export env_ok State.init 17).lib.requested = [17]
    ∧ (export_store env_ok (after_export env_ok State.init 17) (.ok 17) 3 0).map Prod.fst
        = some (- EBUSY)
    ∧ claimed (after_export env_ok (after_export env_ok State.init 17) 17) 0 = true
    ∧ (after_export env_ok (after_export env_ok State.init 17) 17).devices
        = [{ drvdata := 0, name := 17 }]
    ∧ (after_export env_ok (after_export env_ok State.init 17) 17).lib.requested = []
    ∧ claimed State.init 0 = false
    ∧ (export_store env_sysfs_fails State.init (.ok 17) 3 0).map Prod.fst = some (-12)
    ∧ claimed (after_export env_sysfs_fails State.init 17) 0 = true
    ∧ (after_export env_sysfs_fails State.init 17).lib.requested = []
    ∧ (after_export env_sysfs_fails State.init 17).devices = [] := by
  decide

/-- C7 (code defect): after export(17); set_period(500000); set_duty_cycle(125000);
set_enable(1); unexport(17), the next export(17) succeeds and takes slot 0, but the descriptor
still has duty_cycle 125000, period 500000 and enable 1, with the timer armed by the earlier
enable still pending; only the level field is 0. -/
theorem reexport_keeps_old_configuration :
    claimed used_then_unexported 0 = false
    ∧ (export_store env_ok used_then_unexported (.ok 17) 3 0).map Prod.fst = some 3
    ∧ claimed (after_export env_ok used_then_unexported 17) 0 = true
    ∧ desc_at (after_export env_ok used_then_unexported 17).pwm_table 0
        = { duty_cycle := 125000, period := 500000, value := 0, hr_timer := some 1, flags := 1,
            gpio := 17, enable := 1 } := by
  decide

/-- C10 (code defect): from a successful export of pin 17 (level 0, pin low), set_period(2),
set_duty_cycle(1), set_enable(1) and one timer expiry give level 1 and pin high; the following
write of 0 to enable drives the pin low but leaves the level field at 1, so level and pin
differ right after a disable. -/
theorem disable_leaves_level_high :
    (desc_at (after_export env_ok State.init 17).pwm_table 0).value = 0
    ∧ gpio_get_value (after_export env_ok State.init 17).lib 17 = 0
    ∧ (desc_at running_high.pwm_table 0).value = 1
    ∧ gpio_get_value running_high.lib 17 = 1
    ∧ (write_enable running_high 0 (.ok 0) 2).1 = 2
    ∧ (desc_at (write_enable running_high 0 (.ok 0) 2).2.pwm_table 0).enable = 0
    ∧ (desc_at (write_enable running_high 0 (.ok 0) 2).2.pwm_table 0).value = 1
    ∧ gpio_get_value (write_enable running_high 0 (.ok 0) 2).2.lib 17 = 0 := by
  decide

end SoftPwm
